import Mathlib

/-!
Verification of the caching/invalidation core of the repository
(`cache.py` and the seller routes that use it).

The embedding models:
* Python values that flow through the cache (`PyObj`), with Python's
  `str()` / `repr()` rendering used by `RedisCache.generate_key`;
* the MD5 digest (`hashlib.md5(...).hexdigest()`) executably, so concrete
  keys can be computed inside proofs;
* the Redis backing store as explicit state (entries with expiry
  timestamps, a connectivity flag, glob-style `KEYS` matching);
* the `RedisCache` class methods, the `cached` read-through decorator and
  the `invalidate_cache` write-invalidate decorator;
* the seller route bodies over a list of `Supplier` rows, and the decorated
  `update_saller` route as the program actually runs it: the routes are
  `async def`s wrapped by synchronous decorators, so a wrapper's
  `func(*args, **kwargs)` only creates a coroutine and none of the body
  (including `db.commit()`) executes inside the wrapper.

Serialization note: `set` stores `pickle.dumps(value).decode('latin1')` and
`get` applies `pickle.loads(data.encode('latin1'))`.  `latin1` decode/encode
is a bijection on bytes and `pickle.loads` inverts `pickle.dumps`, so the
stored payload is modelled as the value itself; `pickle.dumps` never returns
an empty string, so the `if cached_data:` truthiness test in `get` is
modelled as presence of the entry.
-/

set_option maxRecDepth 4000

/-- Python scalar values (attribute values, route arguments).  Every value
the repository's routes pass as an identifying argument or store in a
record field is one of these. -/
inductive PyScalar where
  | none
  | bool (b : Bool)
  | int (n : Int)
  | str (s : String)
deriving DecidableEq, Repr

/-- Python values that the routes put into the cache: a scalar, a dict of
scalars (`SupplierODT.to_dict()`), or a list of such dicts
(`get_all_sallers`).  This is the value universe the repository's read
paths produce; the cache treats it opaquely. -/
inductive PyObj where
  | scalar (v : PyScalar)
  | dict (xs : List (String × PyScalar))
  | list (xs : List (List (String × PyScalar)))
deriving DecidableEq, Repr

/-- Model of Python's `x is None` test. -/
def PyObj.isNone : PyObj → Bool
  | .scalar .none => true
  | _ => false

/-- A single-quote character, used by Python `repr` of strings. -/
def pyQ : String := String.singleton (Char.ofNat 39)

/-- Left brace as a string. -/
def pyLB : String := String.singleton (Char.ofNat 123)

/-- Right brace as a string. -/
def pyRB : String := String.singleton (Char.ofNat 125)

/-- Python `repr` of a scalar (as used inside `str()` of tuples/dicts).
String escaping for quotes/control characters is not needed by any input
in this repository and is not modelled. -/
def pyRepr : PyScalar → String
  | .none => "None"
  | .bool true => "True"
  | .bool false => "False"
  | .int n => toString n
  | .str s => pyQ ++ s ++ pyQ

/-- Python `str()` of the `args` tuple in `generate_key`. -/
def pyStrTuple (xs : List PyScalar) : String :=
  match xs with
  | [] => "()"
  | [x] => "(" ++ pyRepr x ++ ",)"
  | _ => "(" ++ String.intercalate ", " (xs.map pyRepr) ++ ")"

/-- Python `str()` of the `kwargs` dict in `generate_key`. -/
def pyStrDict (xs : List (String × PyScalar)) : String :=
  pyLB ++ String.intercalate ", "
    (xs.map fun kv => pyQ ++ kv.1 ++ pyQ ++ ": " ++ pyRepr kv.2) ++ pyRB

/-- UTF-8 encoding of one character (Python `str.encode()`). -/
def utf8Char (c : Char) : List Nat :=
  let n := c.toNat
  if n < 0x80 then [n]
  else if n < 0x800 then [0xc0 + n / 0x40, 0x80 + n % 0x40]
  else if n < 0x10000 then
    [0xe0 + n / 0x1000, 0x80 + n / 0x40 % 0x40, 0x80 + n % 0x40]
  else
    [0xf0 + n / 0x40000, 0x80 + n / 0x1000 % 0x40, 0x80 + n / 0x40 % 0x40,
      0x80 + n % 0x40]

/-- UTF-8 encoding of a string (Python `str.encode()`). -/
def utf8 (s : String) : List Nat := (s.data.map utf8Char).flatten

/-! MD5 (`hashlib.md5`), executable over byte lists. -/

/-- The 64 MD5 sine-derived constants. -/
def md5K : List Nat :=
  [0xd76aa478, 0xe8c7b756, 0x242070db, 0xc1bdceee,
   0xf57c0faf, 0x4787c62a, 0xa8304613, 0xfd469501,
   0x698098d8, 0x8b44f7af, 0xffff5bb1, 0x895cd7be,
   0x6b901122, 0xfd987193, 0xa679438e, 0x49b40821,
   0xf61e2562, 0xc040b340, 0x265e5a51, 0xe9b6c7aa,
   0xd62f105d, 0x02441453, 0xd8a1e681, 0xe7d3fbc8,
   0x21e1cde6, 0xc33707d6, 0xf4d50d87, 0x455a14ed,
   0xa9e3e905, 0xfcefa3f8, 0x676f02d9, 0x8d2a4c8a,
   0xfffa3942, 0x8771f681, 0x6d9d6122, 0xfde5380c,
   0xa4beea44, 0x4bdecfa9, 0xf6bb4b60, 0xbebfbc70,
   0x289b7ec6, 0xeaa127fa, 0xd4ef3085, 0x04881d05,
   0xd9d4d039, 0xe6db99e5, 0x1fa27cf8, 0xc4ac5665,
   0xf4292244, 0x432aff97, 0xab9423a7, 0xfc93a039,
   0x655b59c3, 0x8f0ccc92, 0xffeff47d, 0x85845dd1,
   0x6fa87e4f, 0xfe2ce6e0, 0xa3014314, 0x4e0811a1,
   0xf7537e82, 0xbd3af235, 0x2ad7d2bb, 0xeb86d391]

/-- The 64 MD5 per-round left-rotation amounts. -/
def md5S : List Nat :=
  [7, 12, 17, 22, 7, 12, 17, 22, 7, 12, 17, 22, 7, 12, 17, 22,
   5, 9, 14, 20, 5, 9, 14, 20, 5, 9, 14, 20, 5, 9, 14, 20,
   4, 11, 16, 23, 4, 11, 16, 23, 4, 11, 16, 23, 4, 11, 16, 23,
   6, 10, 15, 21, 6, 10, 15, 21, 6, 10, 15, 21, 6, 10, 15, 21]

/-- Bitwise complement on 32 bits. -/
def mnot (w : Nat) : Nat := w ^^^ 0xffffffff

/-- Left rotation of a 32-bit word. -/
def rotl32 (w s : Nat) : Nat := (w * 2 ^ s + w / 2 ^ (32 - s)) % 2 ^ 32

/-- The MD5 round function for step `i`. -/
def md5F (i b c d : Nat) : Nat :=
  if i < 16 then (b &&& c) ||| (mnot b &&& d)
  else if i < 32 then (d &&& b) ||| (mnot d &&& c)
  else if i < 48 then b ^^^ c ^^^ d
  else c ^^^ (b ||| mnot d)

/-- The MD5 message-word index for step `i`. -/
def md5g (i : Nat) : Nat :=
  if i < 16 then i % 16
  else if i < 32 then (5 * i + 1) % 16
  else if i < 48 then (3 * i + 5) % 16
  else 7 * i % 16

/-- The 64 MD5 steps on the state `(a, b, c, d)`, starting at step `i` with
the given fuel; written tail-recursively over four separate accumulators so
that concrete digests evaluate with shallow reduction depth. -/
def md5run (M : List Nat) : Nat → Nat → Nat → Nat → Nat → Nat →
    Nat × Nat × Nat × Nat
  | 0, _, a, b, c, d => (a, b, c, d)
  | fuel + 1, i, a, b, c, d =>
    md5run M fuel (i + 1) d
      ((b + rotl32 ((md5F i b c d + a + md5K.getD i 0 + M.getD (md5g i) 0) %
        2 ^ 32) (md5S.getD i 0)) % 2 ^ 32) b c

/-- One 512-bit MD5 block over message words `M`. -/
def md5block (st : Nat × Nat × Nat × Nat) (M : List Nat) :
    Nat × Nat × Nat × Nat :=
  let r := md5run M 64 0 st.1 st.2.1 st.2.2.1 st.2.2.2
  ((st.1 + r.1) % 2 ^ 32, (st.2.1 + r.2.1) % 2 ^ 32,
    (st.2.2.1 + r.2.2.1) % 2 ^ 32, (st.2.2.2 + r.2.2.2) % 2 ^ 32)

/-- A 64-bit length in little-endian bytes. -/
def le8 (n : Nat) : List Nat :=
  [n % 256, n / 2 ^ 8 % 256, n / 2 ^ 16 % 256, n / 2 ^ 24 % 256,
   n / 2 ^ 32 % 256, n / 2 ^ 40 % 256, n / 2 ^ 48 % 256, n / 2 ^ 56 % 256]

/-- MD5 padding: `0x80`, zeros to 56 mod 64, then the bit length. -/
def md5pad (msg : List Nat) : List Nat :=
  msg ++ 0x80 :: List.replicate ((119 - msg.length % 64) % 64) 0 ++
    le8 (8 * msg.length % 2 ^ 64)

/-- Little-endian 32-bit words of a block. -/
def toWords (bs : List Nat) : List Nat :=
  (List.range (bs.length / 4)).map fun i =>
    bs.getD (4 * i) 0 + bs.getD (4 * i + 1) 0 * 2 ^ 8 +
      bs.getD (4 * i + 2) 0 * 2 ^ 16 + bs.getD (4 * i + 3) 0 * 2 ^ 24

/-- Split a byte list into 64-byte blocks.  The fuel argument (one unit per
block suffices, the list length always does) keeps the recursion structural
so that concrete digests reduce definitionally. -/
def chunksAux : Nat → List Nat → List (List Nat)
  | 0, _ => []
  | _, [] => []
  | fuel + 1, x :: xs => ((x :: xs).take 64) :: chunksAux fuel (xs.drop 63)

/-- Split a byte list into 64-byte blocks. -/
def chunks64 (l : List Nat) : List (List Nat) := chunksAux l.length l

/-- The MD5 state after absorbing a whole message. -/
def md5words (msg : List Nat) : Nat × Nat × Nat × Nat :=
  (chunks64 (md5pad msg)).foldl (fun st blk => md5block st (toWords blk))
    (0x67452301, 0xefcdab89, 0x98badcfe, 0x10325476)

/-- Byte swap of a 32-bit word (little-endian digest serialization). -/
def bswap32 (w : Nat) : Nat :=
  w % 256 * 2 ^ 24 + w / 2 ^ 8 % 256 * 2 ^ 16 + w / 2 ^ 16 % 256 * 2 ^ 8 +
    w / 2 ^ 24 % 256

/-- The 128-bit MD5 digest as a natural number (big-endian over the
digest's byte sequence, which is what `hexdigest` prints). -/
def md5Nat (msg : List Nat) : Nat :=
  let s := md5words msg
  bswap32 s.1 * 2 ^ 96 + bswap32 s.2.1 * 2 ^ 64 + bswap32 s.2.2.1 * 2 ^ 32 +
    bswap32 s.2.2.2

/-- Lowercase hex digit characters. -/
def hexChar (n : Nat) : Char := "0123456789abcdef".data.getD n '0'

/-- A natural number printed as exactly 32 lowercase hex characters. -/
def hexPad32 (n : Nat) : String :=
  String.mk ((List.range 32).map fun i => hexChar (n / 16 ^ (31 - i) % 16))

/-- Model of `hashlib.md5(data).hexdigest()`. -/
def md5hex (msg : List Nat) : String := hexPad32 (md5Nat msg)

/-- Sanity check of the MD5 embedding against the RFC 1321 test suite. -/
theorem md5hex_abc :
    md5hex (utf8 "abc") = "900150983cd24fb0d6963f7d28e17f72" := by decide

/-- Second RFC 1321 vector, exercising the empty-message padding path. -/
theorem md5hex_empty :
    md5hex (utf8 "") = "d41d8cd98f00b204e9800998ecf8427e" := by decide

/-! The Redis backing store, as explicit state. -/

/-- Glob matching of Redis `KEYS` (`*` any sequence, `?` any one character,
other characters literal; the character-class syntax is not used by any
pattern in this repository and is not modelled).  The fuel argument keeps
the recursion structural; `pattern.length + string.length + 1` always
suffices. -/
def globAux : Nat → List Char → List Char → Bool
  | 0, _, _ => false
  | _ + 1, [], s => s.isEmpty
  | fuel + 1, p0 :: ps, s =>
    if p0 = '*' then
      globAux fuel ps s ||
        (match s with
         | [] => false
         | _ :: s2 => globAux fuel (p0 :: ps) s2)
    else
      match s with
      | [] => false
      | d :: s2 => (if p0 = '?' then true else p0 == d) && globAux fuel ps s2

/-- Whether a key matches a glob pattern. -/
def globMatch (p s : List Char) : Bool := globAux (p.length + s.length + 1) p s

/-- The Redis server state: live entries as `(key, payload, expiry)` (the
payload stands for the pickled value, see the serialization note above),
plus whether the server is reachable.  An unreachable server makes every
client call raise, which the `RedisCache` methods catch. -/
structure RedisState where
  entries : List (String × PyObj × Nat)
  connected : Bool
deriving DecidableEq, Repr

/-- The stored `(payload, expiry)` for a key, ignoring expiry. -/
def RedisState.lookup (st : RedisState) (key : String) : Option (PyObj × Nat) :=
  (st.entries.find? fun e => e.1 == key).map (·.2)

/-- Redis `GET` at time `t`: an entry is visible only strictly before its
expiry timestamp. -/
def redisGet (st : RedisState) (t : Nat) (key : String) : Option PyObj :=
  match st.lookup key with
  | some (v, exp) => if t < exp then some v else Option.none
  | Option.none => Option.none

/-- Redis `SETEX` at time `t`: replaces any entry for the key and sets the
expiry to `t + ttl`. -/
def redisSetex (st : RedisState) (t : Nat) (key : String) (ttl : Nat)
    (value : PyObj) : RedisState :=
  { st with entries :=
      (key, value, t + ttl) :: st.entries.filter fun e => !(e.1 == key) }

/-- Redis `DEL` of a set of keys. -/
def redisDel (st : RedisState) (keys : List String) : RedisState :=
  { st with entries := st.entries.filter fun e => !(keys.contains e.1) }

/-- Redis `KEYS pattern` at time `t`: the unexpired keys matching the
glob pattern. -/
def redisKeys (st : RedisState) (t : Nat) (p : String) : List String :=
  (st.entries.filter fun e => t < e.2.2 && globMatch p.data e.1.data).map (·.1)

/-! The `RedisCache` class of `cache.py`. -/

/-- The `default_ttl` attribute (300 seconds). -/
def RedisCache.default_ttl : Nat := 300

/-- Effective ttl of `RedisCache.set`: the source computes
`ttl = ttl or self.default_ttl`, so both `None` and `0` fall back to the
default. -/
def effTTL : Option Nat → Nat
  | Option.none => RedisCache.default_ttl
  | some n => if n == 0 then RedisCache.default_ttl else n

/-- Method `RedisCache.get`: returns the unpickled payload when the key is
present (a pickled payload is a nonempty, hence truthy, string), `None` on
a miss, and `None` when the client raises (server unreachable) — the
`except` clause logs and returns `None`. -/
def RedisCache.get (st : RedisState) (t : Nat) (key : String) : PyObj :=
  if st.connected then
    match redisGet st t key with
    | some payload => payload
    | Option.none => PyObj.scalar .none
  else PyObj.scalar .none

/-- Method `RedisCache.set`: pickles the value and stores it via `SETEX`,
returning `True`; when the client raises (server unreachable) the `except`
clause logs and returns `False`, leaving the store untouched. -/
def RedisCache.set (st : RedisState) (t : Nat) (key : String) (value : PyObj)
    (ttl : Option Nat) : Bool × RedisState :=
  if st.connected then (true, redisSetex st t key (effTTL ttl) value)
  else (false, st)

/-- Method `RedisCache.delete`: deletes the key and returns `True`; on a
client error returns `False`. -/
def RedisCache.delete (st : RedisState) (key : String) : Bool × RedisState :=
  if st.connected then (true, redisDel st [key]) else (false, st)

/-- Method `RedisCache.clear_pattern`: collects the keys matching the
pattern and deletes them (skipping the `DEL` call when there are none),
returning `True`; on a client error returns `False`. -/
def RedisCache.clear_pattern (st : RedisState) (t : Nat) (p : String) :
    Bool × RedisState :=
  if st.connected then
    (true,
      let keys := redisKeys st t p
      if keys.isEmpty then st else redisDel st keys)
  else (false, st)

/-- Method `RedisCache.generate_key`: an MD5 hex digest of the f-string
joining the prefix, `str(args)` and `str(kwargs)` with colons, under a
literal `"cache:"` prefix. -/
def RedisCache.generate_key (pre : String) (args : List PyScalar)
    (kwargs : List (String × PyScalar)) : String :=
  "cache:" ++ md5hex (utf8 (pre ++ ":" ++ pyStrTuple args ++ ":" ++
    pyStrDict kwargs))

/-! The decorators of `cache.py`.  A decorated function is modelled by the
outcome of its one call in the wrapped scenario: `Except.error` stands for
the call raising, `Except.ok` for it returning. -/

/-- The `cached(ttl)` decorator's wrapper around a function named `fname`,
called with `args`/`kwargs` at time `t`: compute the key, serve a non-`None`
cached value without invoking the function, otherwise invoke it and (on
normal return) store the result.  The third component reports whether the
wrapped function was invoked. -/
def cachedCall (ttl : Nat) (fname : String) (args : List PyScalar)
    (kwargs : List (String × PyScalar)) (func : Except String PyObj)
    (st : RedisState) (t : Nat) : Except String PyObj × RedisState × Bool :=
  let key := RedisCache.generate_key fname args kwargs
  let cached_result := RedisCache.get st t key
  if !cached_result.isNone then (Except.ok cached_result, st, false)
  else
    match func with
    | Except.error e => (Except.error e, st, true)
    | Except.ok result =>
      let r2 := RedisCache.set st t key result (some ttl)
      (Except.ok result, r2.2, true)

/-- The `invalidate_cache(pattern)` decorator's wrapper around a write
function, called at time `t`: run the write first; only when it returns
normally clear the matching cache keys; a raise propagates with the cache
untouched. -/
def invalidateCall (p : String) (func : Except String PyObj)
    (st : RedisState) (t : Nat) : Except String PyObj × RedisState :=
  match func with
  | Except.error e => (Except.error e, st)
  | Except.ok result => (Except.ok result, (RedisCache.clear_pattern st t p).2)

/-! The seller routes of `API/routes/sellers.py` over the `Supplier` model.
The database is modelled as the list of `Supplier` rows.

Both routes are `async def`s, while the `cached` and `invalidate_cache`
wrappers are plain synchronous functions: inside a wrapper,
`func(*args, **kwargs)` only CREATES a coroutine object — none of the body
(queries, `setattr`s, `db.commit()`) runs — and the wrapper then proceeds
with that un-awaited coroutine as its `result`.  The embedding models the
route bodies (what the coroutine does when awaited) as functions over the
row list, and the decorated update route as the program actually runs it:
coroutine created, body not run, cache cleared, coroutine returned.  The
decorated read route is not modelled: its wrapper likewise never runs the
body, and its cache key is formed from `str(kwargs)` where FastAPI's
keyword arguments include the per-request ORM `Session` object, whose
`str()` embeds a memory address; no claim needs that wrapper. -/

/-- A `Supplier` row.  Attribute values are scalars; `id` is the integer
primary key. -/
structure Supplier where
  id : Nat
  name : PyScalar
  contact_person : PyScalar
  email : PyScalar
  phone : PyScalar
  address : PyScalar
  is_active : PyScalar
  created_at : PyScalar
  updated_at : PyScalar
deriving DecidableEq, Repr

/-- The `allowed_fields` list of `update_saller`. -/
def allowed_fields : List String :=
  ["name", "contact_person", "email", "phone", "address", "is_active"]

/-- Python `setattr(seller, field, value)` for the update route; fields
outside the model are left unchanged (the route guards with `hasattr`). -/
def Supplier.setattr (s : Supplier) (field : String) (v : PyScalar) : Supplier :=
  if field == "name" then { s with name := v }
  else if field == "contact_person" then { s with contact_person := v }
  else if field == "email" then { s with email := v }
  else if field == "phone" then { s with phone := v }
  else if field == "address" then { s with address := v }
  else if field == "is_active" then { s with is_active := v }
  else s

/-- The attribute names `hasattr(seller, field)` finds on a `Supplier`. -/
def supplierAttrs : List String :=
  ["id", "name", "contact_person", "email", "phone", "address", "is_active",
   "created_at", "updated_at"]

/-- The update loop of `update_saller`: apply each `(field, value)` of
`update_data` that is in `allowed_fields` and present on the model. -/
def applyUpdate (s : Supplier) (upd : List (String × PyScalar)) : Supplier :=
  upd.foldl
    (fun acc kv =>
      if allowed_fields.contains kv.1 && supplierAttrs.contains kv.1 then
        acc.setattr kv.1 kv.2
      else acc)
    s

/-- Composition `ODTConverter.supplier_to_odt(seller).to_dict()`: the dict
the routes return. -/
def supplier_to_dict (s : Supplier) : PyObj :=
  PyObj.dict
    [("id", .int s.id), ("name", s.name), ("contact_person", s.contact_person),
     ("email", s.email), ("phone", s.phone), ("address", s.address),
     ("is_active", s.is_active), ("created_at", s.created_at),
     ("updated_at", s.updated_at)]

/-- Lookup of a key in a returned dict. -/
def pyDictGet (v : PyObj) (k : String) : Option PyScalar :=
  match v with
  | PyObj.dict xs => (xs.find? fun kv => kv.1 == k).map (·.2)
  | _ => Option.none

/-- Query `db.query(Supplier).filter(Supplier.id == seller_id).first()`. -/
def dbFirst (db : List Supplier) (i : Nat) : Option Supplier :=
  db.find? fun s => s.id == i

/-- Body of the `get_saller_by_id` coroutine, as it runs when awaited: 404
when the seller is absent, otherwise its ODT dict. -/
def get_saller_by_id_fn (db : List Supplier) (seller_id : Nat) :
    Except String PyObj :=
  match dbFirst db seller_id with
  | Option.none => Except.error "404"
  | some s => Except.ok (supplier_to_dict s)

/-- Body of the `update_saller` coroutine, as it runs when awaited: find
the seller (404 when absent), apply the allowed fields of `update_data`,
commit, and return the updated seller's ODT dict.  The returned list is
the then-committed database. -/
def update_saller_fn (db : List Supplier) (seller_id : Nat)
    (upd : List (String × PyScalar)) : Except String PyObj × List Supplier :=
  match dbFirst db seller_id with
  | Option.none => (Except.error "404", db)
  | some _ =>
    let db2 := db.map fun s =>
      if s.id == seller_id then applyUpdate s upd else s
    match dbFirst db2 seller_id with
    | some s2 => (Except.ok (supplier_to_dict s2), db2)
    | Option.none => (Except.error "500", db2)

/-- An un-awaited coroutine object: calling an `async def` returns one
without running any of its body.  The payload records the pending call. -/
inductive Coroutine where
  | update_saller (seller_id : Nat) (upd : List (String × PyScalar))
deriving DecidableEq, Repr

/-- The decorated `update_saller` route, as the program runs it.
`update_saller` is an `async def`, but `invalidate_cache`'s wrapper is
synchronous, so `result = func(*args, **kwargs)` (cache.py line 131) only
creates a coroutine: nothing of the body — in particular `db.commit()` —
executes, and no exception can be raised there.  The wrapper then calls
`cache.clear_pattern(pattern)` (line 132) unconditionally and returns the
un-awaited coroutine.  Components: the returned coroutine, the database
(untouched — nothing was committed), and the cache state after the
clearing. -/
def update_saller_route (db : List Supplier) (st : RedisState) (t : Nat)
    (seller_id : Nat) (upd : List (String × PyScalar)) :
    Coroutine × List Supplier × RedisState :=
  let result := Coroutine.update_saller seller_id upd
  (result, db, (RedisCache.clear_pattern st t "cache:*").2)

/-! Basic lemmas about the store operations. -/

/-- The effective ttl of an explicit positive ttl is itself. -/
theorem effTTL_some_pos (n : Nat) (h : 0 < n) : effTTL (some n) = n := by
  have hn : (n == 0) = false := by
    simp only [beq_eq_false_iff_ne, ne_eq]
    omega
  simp [effTTL, hn]

/-- Example connected store with no entries. -/
def exConn : RedisState := ⟨[], true⟩

/-- Example unreachable store holding an entry. -/
def exDown : RedisState := ⟨[("cache:k", PyObj.scalar (.int 7), 50)], false⟩

/-- Claim C4: a value stored with a positive ttl is absent from every `get`
performed more than `ttl` time units after the `set` (the entry is never
returned past its expiry timestamp `t0 + ttl`). -/
theorem get_never_past_expiry (st : RedisState) (t0 t : Nat) (key : String)
    (value : PyObj) (ttl : Nat) (httl : 0 < ttl) (ht : t0 + ttl < t) :
    RedisCache.get (RedisCache.set st t0 key value (some ttl)).2 t key =
      PyObj.scalar .none := by
  by_cases hc : st.connected
  · simp only [RedisCache.set, hc, if_true, RedisCache.get, redisSetex,
      redisGet, RedisState.lookup, effTTL_some_pos ttl httl,
      List.find?_cons, beq_self_eq_true]
    have hlt : ¬ t < t0 + ttl := by omega
    simp [Option.map, hlt]
  · simp [RedisCache.set, RedisCache.get, hc]

/-- Witness for C4 at a concrete store, key and times. -/
theorem get_never_past_expiry_witness :
    RedisCache.get
      (RedisCache.set exConn 0 "k" (PyObj.scalar (.str "v")) (some 5)).2 6 "k" =
      PyObj.scalar .none :=
  get_never_past_expiry exConn 0 6 "k" (PyObj.scalar (.str "v")) 5
    (by decide) (by decide)

/-- Claim C5: when the backing store is unreachable, `get` degrades to an
unconditional miss and `set`/`delete` report failure, leaving the store
untouched; all three return normally (they are total functions here — the
`except` clauses of the source absorb the client error). -/
theorem cache_down_degrades (st : RedisState) (t : Nat) (key : String)
    (value : PyObj) (ttl : Option Nat) (h : st.connected = false) :
    RedisCache.get st t key = PyObj.scalar .none ∧
    (RedisCache.set st t key value ttl).1 = false ∧
    (RedisCache.set st t key value ttl).2 = st ∧
    (RedisCache.delete st key).1 = false ∧
    (RedisCache.delete st key).2 = st := by
  simp [RedisCache.get, RedisCache.set, RedisCache.delete, h]

/-- Witness for C5 at a concrete unreachable store. -/
theorem cache_down_degrades_witness :
    RedisCache.get exDown 3 "cache:k" = PyObj.scalar .none ∧
    (RedisCache.set exDown 3 "cache:k" (PyObj.scalar (.int 8)) (some 5)).1 =
      false ∧
    (RedisCache.set exDown 3 "cache:k" (PyObj.scalar (.int 8)) (some 5)).2 =
      exDown ∧
    (RedisCache.delete exDown "cache:k").1 = false ∧
    (RedisCache.delete exDown "cache:k").2 = exDown :=
  cache_down_degrades exDown 3 "cache:k" (PyObj.scalar (.int 8)) (some 5) rfl

/-- Claim C6: immediately after a successful `set` with positive ttl, `get`
returns exactly the stored value (the payload round-trips unchanged). -/
theorem set_then_get (st : RedisState) (t : Nat) (key : String)
    (value : PyObj) (ttl : Nat) (hc : st.connected = true) (httl : 0 < ttl) :
    (RedisCache.set st t key value (some ttl)).1 = true ∧
    RedisCache.get (RedisCache.set st t key value (some ttl)).2 t key =
      value := by
  refine ⟨by simp [RedisCache.set, hc], ?_⟩
  simp only [RedisCache.set, hc, if_true, RedisCache.get, redisSetex,
    redisGet, RedisState.lookup, effTTL_some_pos ttl httl,
    List.find?_cons, beq_self_eq_true]
  have hlt : t < t + ttl := by omega
  simp [Option.map, hlt]

/-- Witness for C6 at a concrete store and value. -/
theorem set_then_get_witness :
    (RedisCache.set exConn 0 "k" (PyObj.dict [("id", .int 1)]) (some 60)).1 =
      true ∧
    RedisCache.get
      (RedisCache.set exConn 0 "k" (PyObj.dict [("id", .int 1)]) (some 60)).2
      0 "k" = PyObj.dict [("id", .int 1)] :=
  set_then_get exConn 0 "k" (PyObj.dict [("id", .int 1)]) 60 rfl (by decide)

/-- Claim C3: when the wrapped write function raises, `invalidating_write`
propagates the failure unchanged and the cache state is exactly as before
the call — no entry is removed. -/
theorem invalidating_write_failure (p e : String) (st : RedisState) (t : Nat) :
    invalidateCall p (Except.error e) st t = (Except.error e, st) := rfl

/-! Glob-matching lemmas for the `"cache:"` key prefix. -/

/-- A trailing `*` matches any remaining string, for any adequate fuel. -/
theorem glob_star_all (s : List Char) : ∀ fuel, s.length + 2 ≤ fuel →
    globAux fuel ['*'] s = true := by
  induction s with
  | nil =>
    intro fuel hf
    obtain ⟨f, rfl⟩ : ∃ f, fuel = f + 2 := ⟨fuel - 2, by omega⟩
    simp [globAux]
  | cons x s ih =>
    intro fuel hf
    obtain ⟨f, rfl⟩ : ∃ f, fuel = f + 1 := ⟨fuel - 1, by omega⟩
    have hs := ih f (by simp at hf ⊢; omega)
    simp [globAux, hs]

/-- One literal pattern character consumes one string character. -/
theorem globAux_lit (fuel : Nat) (p0 : Char) (ps : List Char) (d : Char)
    (s : List Char) (h1 : ¬ p0 = '*') (h2 : ¬ p0 = '?') :
    globAux (fuel + 1) (p0 :: ps) (d :: s) = ((p0 == d) && globAux fuel ps s) := by
  simp [globAux, h1, h2]

/-- A pattern `lit*` (a literal prefix then a star) matches any string that
begins with that literal prefix. -/
theorem globAux_lit_star (lit : List Char)
    (hlit : ∀ c ∈ lit, ¬ c = '*' ∧ ¬ c = '?') (rest : List Char) :
    ∀ fuel, lit.length + rest.length + 2 ≤ fuel →
    globAux fuel (lit ++ ['*']) (lit ++ rest) = true := by
  induction lit with
  | nil =>
    intro fuel hf
    simpa using glob_star_all rest fuel (by simpa using hf)
  | cons c cs ih =>
    intro fuel hf
    obtain ⟨f, rfl⟩ : ∃ f, fuel = f + 1 := ⟨fuel - 1, by omega⟩
    have hc := hlit c (by simp)
    simp only [List.cons_append, globAux_lit f c _ c _ hc.1 hc.2,
      beq_self_eq_true, Bool.true_and]
    exact ih (fun x hx => hlit x (by simp [hx])) f (by simp at hf ⊢; omega)

/-- Every string of the form `"cache:" ++ h` matches the glob pattern
`"cache:*"` the write endpoints use. -/
theorem glob_cacheStar (h : String) :
    globMatch "cache:*".data ("cache:" ++ h).data = true := by
  have hp : "cache:*".data = ['c', 'a', 'c', 'h', 'e', ':'] ++ ['*'] := by decide
  have hs : ("cache:" ++ h).data = ['c', 'a', 'c', 'h', 'e', ':'] ++ h.data := by
    rw [String.data_append]
  rw [hp, hs]
  unfold globMatch
  exact globAux_lit_star ['c', 'a', 'c', 'h', 'e', ':'] (by decide) h.data _
    (by simp [List.length_append]; omega)

/-- Every hex digit rendered by `hexChar` on a value below 16 is one of the
sixteen lowercase hex characters. -/
theorem hexChar_mem : ∀ x < 16, hexChar x ∈ "0123456789abcdef".data := by
  decide

/-- The padded hex rendering always has exactly 32 characters. -/
theorem hexPad32_length (n : Nat) : (hexPad32 n).length = 32 := by
  simp [hexPad32, String.length]

/-- Claim C9: every key `generate_key` produces is the literal prefix
`"cache:"` followed by a 32-character lowercase hex digest, and therefore
matches the glob pattern `"cache:*"` that the write endpoints pass to the
invalidation decorator. -/
theorem generate_key_shape (pre : String) (args : List PyScalar)
    (kwargs : List (String × PyScalar)) :
    ∃ h : String,
      RedisCache.generate_key pre args kwargs = "cache:" ++ h ∧
      h.length = 32 ∧
      (∀ c ∈ h.data, c ∈ "0123456789abcdef".data) ∧
      globMatch "cache:*".data
        (RedisCache.generate_key pre args kwargs).data = true := by
  refine ⟨md5hex (utf8 (pre ++ ":" ++ pyStrTuple args ++ ":" ++
    pyStrDict kwargs)), rfl, hexPad32_length _, ?_, glob_cacheStar _⟩
  intro c hc
  simp only [md5hex, hexPad32, List.mem_map] at hc
  obtain ⟨i, _, rfl⟩ := hc
  exact hexChar_mem _ (Nat.mod_lt _ (by omega))

/-! Lemmas about pattern invalidation. -/

/-- Deleting a key set removes exactly those keys from the lookup view. -/
theorem find?_filter_not_contains (l : List (String × PyObj × Nat))
    (ks : List String) (k : String) :
    (l.filter fun e => !(ks.contains e.1)).find? (fun e => e.1 == k) =
      if ks.contains k then Option.none
      else l.find? (fun e => e.1 == k) := by
  induction l with
  | nil =>
    cases hk : ks.contains k <;> simp [hk]
  | cons e l ih =>
    rw [List.filter_cons]
    cases hk : ks.contains e.1 with
    | true =>
      rw [if_neg (by decide)]
      cases hek : e.1 == k with
      | true =>
        have hek2 : e.1 = k := by simpa using hek
        have hkk : ks.contains k = true := by rw [← hek2]; exact hk
        rw [ih, if_pos hkk, if_pos hkk]
      | false =>
        rw [ih, @List.find?_cons_of_neg _ (fun e => e.1 == k) e l (by simp [hek])]
    | false =>
      rw [if_pos (by decide)]
      cases hek : e.1 == k with
      | true =>
        have hek2 : e.1 = k := by simpa using hek
        have hkk : ks.contains k = false := by rw [← hek2]; exact hk
        rw [@List.find?_cons_of_pos _ (fun e => e.1 == k) e
            (List.filter (fun e => !ks.contains e.1) l) hek,
          if_neg (by simpa using hkk),
          @List.find?_cons_of_pos _ (fun e => e.1 == k) e l hek]
      | false =>
        rw [@List.find?_cons_of_neg _ (fun e => e.1 == k) e
            (List.filter (fun e => !ks.contains e.1) l) (by simp [hek]),
          @List.find?_cons_of_neg _ (fun e => e.1 == k) e l (by simp [hek]), ih]

/-- Lookup after a `DEL`. -/
theorem lookup_redisDel (st : RedisState) (ks : List String) (k : String) :
    (redisDel st ks).lookup k =
      if ks.contains k then Option.none else st.lookup k := by
  unfold redisDel RedisState.lookup
  simp only [find?_filter_not_contains]
  cases hk : ks.contains k <;> simp [hk]

/-- A key with an unexpired entry that matches the pattern is listed by
`KEYS`. -/
theorem mem_redisKeys (st : RedisState) (t : Nat) (p k : String)
    (v : PyObj) (exp : Nat) (hl : st.lookup k = some (v, exp)) (ht : t < exp)
    (hm : globMatch p.data k.data = true) : k ∈ redisKeys st t p := by
  unfold RedisState.lookup at hl
  obtain ⟨e, he, hmap⟩ : ∃ e, st.entries.find? (fun e => e.1 == k) = some e ∧
      e.2 = (v, exp) := by
    cases hf : st.entries.find? (fun e => e.1 == k) with
    | none => rw [hf] at hl; simp at hl
    | some e => rw [hf] at hl; exact ⟨e, rfl, by simpa using hl⟩
  have hek : e.1 = k := by simpa using List.find?_some he
  have hmem : e ∈ st.entries := List.mem_of_find?_eq_some he
  unfold redisKeys
  refine List.mem_map.mpr ⟨e, List.mem_filter.mpr ⟨hmem, ?_⟩, hek⟩
  simp only [Bool.and_eq_true, decide_eq_true_eq]
  rw [hmap, hek]
  exact ⟨by simpa using ht, hm⟩

/-- A key listed by `KEYS` matches the pattern. -/
theorem redisKeys_match (st : RedisState) (t : Nat) (p k : String)
    (hk : k ∈ redisKeys st t p) : globMatch p.data k.data = true := by
  unfold redisKeys at hk
  obtain ⟨e, he, rfl⟩ := List.mem_map.mp hk
  have := (List.mem_filter.mp he).2
  simp only [Bool.and_eq_true] at this
  exact this.2

/-- Method `clear_pattern` preserves connectivity. -/
theorem clear_pattern_connected (st : RedisState) (t : Nat) (p : String) :
    ((RedisCache.clear_pattern st t p).2).connected = st.connected := by
  by_cases hc : st.connected
  · simp only [RedisCache.clear_pattern, hc, if_true]
    by_cases hke : (redisKeys st t p).isEmpty
    · simp [hke, hc]
    · simp [hke, redisDel, hc]
  · simp [RedisCache.clear_pattern, hc]

/-- After `clear_pattern p` at time `t`, `get` at any time `t' ≥ t` is a
miss for every key matching `p`. -/
theorem clear_pattern_get_none (st : RedisState) (t t' : Nat) (p k : String)
    (htt : t ≤ t') (hm : globMatch p.data k.data = true) :
    RedisCache.get (RedisCache.clear_pattern st t p).2 t' k =
      PyObj.scalar .none := by
  by_cases hc : st.connected
  · have hst2 : (RedisCache.clear_pattern st t p).2.connected = true := by
      rw [clear_pattern_connected]; exact hc
    unfold RedisCache.get
    rw [hst2, if_pos rfl]
    suffices hgn : redisGet (RedisCache.clear_pattern st t p).2 t' k =
        Option.none by rw [hgn]
    unfold RedisCache.clear_pattern
    rw [if_pos hc]
    simp only
    by_cases hke : (redisKeys st t p).isEmpty
    · rw [if_pos hke]
      unfold redisGet
      cases hlk : st.lookup k with
      | none => simp
      | some ve =>
        obtain ⟨v, exp⟩ := ve
        have hnlt : ¬ t' < exp := by
          intro hlt
          have hkm : k ∈ redisKeys st t p :=
            mem_redisKeys st t p k v exp hlk (by omega) hm
          rw [List.isEmpty_iff] at hke
          rw [hke] at hkm
          simp at hkm
        show (if t' < exp then some v else Option.none) = Option.none
        rw [if_neg hnlt]
    · rw [if_neg hke]
      unfold redisGet
      rw [lookup_redisDel]
      cases hkk : (redisKeys st t p).contains k with
      | true => rw [if_pos rfl]
      | false =>
        rw [if_neg (by simp [hkk])]
        cases hlk : st.lookup k with
        | none => simp
        | some ve =>
          obtain ⟨v, exp⟩ := ve
          have hnlt : ¬ t' < exp := by
            intro hlt
            have hkm : k ∈ redisKeys st t p :=
              mem_redisKeys st t p k v exp hlk (by omega) hm
            have : (redisKeys st t p).contains k = true := by
              simpa using hkm
            rw [this] at hkk
            cases hkk
          show (if t' < exp then some v else Option.none) = Option.none
          rw [if_neg hnlt]
  · have hf : st.connected = false := by simpa using hc
    unfold RedisCache.clear_pattern
    rw [if_neg hc]
    simp [RedisCache.get, hf]

/-- Claim C8: after `clear_pattern p`, `get` is a miss for every key
matching `p`, while every key not matching `p` keeps its entry — value and
expiry — unchanged, and `get` on it is unchanged. -/
theorem clear_matching_frame (st : RedisState) (t : Nat) (p k : String) :
    (globMatch p.data k.data = true →
      RedisCache.get (RedisCache.clear_pattern st t p).2 t k =
        PyObj.scalar .none) ∧
    (globMatch p.data k.data = false →
      ((RedisCache.clear_pattern st t p).2).lookup k = st.lookup k ∧
      RedisCache.get (RedisCache.clear_pattern st t p).2 t k =
        RedisCache.get st t k) := by
  constructor
  · intro hm
    exact clear_pattern_get_none st t t p k (le_refl t) hm
  · intro hm
    have hlk : ((RedisCache.clear_pattern st t p).2).lookup k = st.lookup k := by
      by_cases hc : st.connected
      · simp only [RedisCache.clear_pattern, hc, if_true]
        by_cases hke : (redisKeys st t p).isEmpty
        · simp [hke]
        · simp only [hke, if_false, Bool.false_eq_true, lookup_redisDel]
          rw [if_neg]
          intro hkk
          have := redisKeys_match st t p k (by simpa using hkk)
          rw [this] at hm
          cases hm
      · simp [RedisCache.clear_pattern, hc]
    refine ⟨hlk, ?_⟩
    unfold RedisCache.get
    rw [clear_pattern_connected]
    by_cases hc : st.connected
    · rw [hc]
      unfold redisGet
      rw [hlk]
    · have hf : st.connected = false := by simpa using hc
      rw [hf]
      simp

/-- Witness for C8 at a concrete store: one matching and one non-matching
key around a `clear_pattern "cache:*"`. -/
def exTwoKeys : RedisState :=
  ⟨[("cache:aa", PyObj.scalar (.int 1), 90), ("other", PyObj.scalar (.int 2), 90)],
    true⟩

/-- Witness for C8: the matching key is gone, the other entry (value and
expiry) and its `get` are untouched. -/
theorem clear_matching_frame_witness :
    RedisCache.get (RedisCache.clear_pattern exTwoKeys 5 "cache:*").2 5
      "cache:aa" = PyObj.scalar .none ∧
    ((RedisCache.clear_pattern exTwoKeys 5 "cache:*").2).lookup "other" =
      exTwoKeys.lookup "other" ∧
    RedisCache.get (RedisCache.clear_pattern exTwoKeys 5 "cache:*").2 5
      "other" = RedisCache.get exTwoKeys 5 "other" :=
  ⟨(clear_matching_frame exTwoKeys 5 "cache:*" "cache:aa").1 (by decide),
    (clear_matching_frame exTwoKeys 5 "cache:*" "other").2 (by decide)⟩

/-! The read-through decorator: round trips and the `None` blind spot. -/

/-- Decidable equality of call outcomes. -/
instance instDecEqExceptCall {e a : Type} [DecidableEq e] [DecidableEq a] :
    DecidableEq (Except e a) := fun x y =>
  match x, y with
  | Except.ok v, Except.ok w =>
    if h : v = w then isTrue (by rw [h])
    else isFalse (by intro hc; cases hc; exact h rfl)
  | Except.error v, Except.error w =>
    if h : v = w then isTrue (by rw [h])
    else isFalse (by intro hc; cases hc; exact h rfl)
  | Except.ok _, Except.error _ => isFalse (by intro hc; cases hc)
  | Except.error _, Except.ok _ => isFalse (by intro hc; cases hc)

/-- Claim C2 (amended): starting from a miss, a first `cached_read` whose
fetch returns a non-`None` value `V` stores and returns `V`, and a second
call within the ttl window returns `V` without invoking the fetch, even
when the system of record would now return `V2`. -/
theorem cached_read_round_trip (ttl : Nat) (fname : String)
    (args : List PyScalar) (kwargs : List (String × PyScalar)) (V V2 : PyObj)
    (st : RedisState) (t t2 : Nat) (hc : st.connected = true)
    (hmiss : RedisCache.get st t (RedisCache.generate_key fname args kwargs) =
      PyObj.scalar .none)
    (hV : V.isNone = false) (httl : 0 < ttl) (hwin : t2 < t + ttl) :
    (cachedCall ttl fname args kwargs (Except.ok V) st t).1 = Except.ok V ∧
    (cachedCall ttl fname args kwargs (Except.ok V) st t).2.2 = true ∧
    (cachedCall ttl fname args kwargs (Except.ok V2)
      (cachedCall ttl fname args kwargs (Except.ok V) st t).2.1 t2).1 =
      Except.ok V ∧
    (cachedCall ttl fname args kwargs (Except.ok V2)
      (cachedCall ttl fname args kwargs (Except.ok V) st t).2.1 t2).2.2 =
      false := by
  have hfirst : cachedCall ttl fname args kwargs (Except.ok V) st t =
      (Except.ok V,
        (RedisCache.set st t (RedisCache.generate_key fname args kwargs) V
          (some ttl)).2, true) := by
    unfold cachedCall
    simp only [hmiss]
    simp [PyObj.isNone]
  have hget2 : RedisCache.get
      (RedisCache.set st t (RedisCache.generate_key fname args kwargs) V
        (some ttl)).2 t2 (RedisCache.generate_key fname args kwargs) = V := by
    simp only [RedisCache.set, hc, if_true, RedisCache.get, redisSetex,
      redisGet, RedisState.lookup, effTTL_some_pos ttl httl,
      List.find?_cons, beq_self_eq_true]
    simp [Option.map, hwin]
  have hsecond : cachedCall ttl fname args kwargs (Except.ok V2)
      (RedisCache.set st t (RedisCache.generate_key fname args kwargs) V
        (some ttl)).2 t2 =
      (Except.ok V,
        (RedisCache.set st t (RedisCache.generate_key fname args kwargs) V
          (some ttl)).2, false) := by
    unfold cachedCall
    simp only [hget2, hV]
    simp
  rw [hfirst]
  simp only [hsecond]
  simp

/-- Witness for C2 (amended) at a concrete store, value and times. -/
theorem cached_read_round_trip_witness :
    (cachedCall 60 "f" [] [] (Except.ok (PyObj.scalar (.str "V"))) exConn 0).1 =
      Except.ok (PyObj.scalar (.str "V")) ∧
    (cachedCall 60 "f" [] [] (Except.ok (PyObj.scalar (.str "V"))) exConn 0).2.2 =
      true ∧
    (cachedCall 60 "f" [] [] (Except.ok (PyObj.scalar (.str "W")))
      (cachedCall 60 "f" [] [] (Except.ok (PyObj.scalar (.str "V")))
        exConn 0).2.1 30).1 = Except.ok (PyObj.scalar (.str "V")) ∧
    (cachedCall 60 "f" [] [] (Except.ok (PyObj.scalar (.str "W")))
      (cachedCall 60 "f" [] [] (Except.ok (PyObj.scalar (.str "V")))
        exConn 0).2.1 30).2.2 = false :=
  cached_read_round_trip 60 "f" [] [] (PyObj.scalar (.str "V"))
    (PyObj.scalar (.str "W")) exConn 0 30 rfl (by decide) rfl (by decide)
    (by decide)

/-- Counterexample to C2 as stated: when the fetch returns `None`, the
second call invokes the fetch again and returns the new value, so neither
"the fetch is not invoked on the second call" nor "both calls return V"
holds. -/
theorem cached_read_round_trip_cex :
    (cachedCall 60 "f" [] [] (Except.ok (PyObj.scalar .none)) exConn 0).2.2 =
      true ∧
    (cachedCall 60 "f" [] [] (Except.ok (PyObj.scalar .none)) exConn 0).1 =
      Except.ok (PyObj.scalar .none) ∧
    (cachedCall 60 "f" [] [] (Except.ok (PyObj.scalar (.int 5)))
      (cachedCall 60 "f" [] [] (Except.ok (PyObj.scalar .none))
        exConn 0).2.1 1).2.2 = true ∧
    (cachedCall 60 "f" [] [] (Except.ok (PyObj.scalar (.int 5)))
      (cachedCall 60 "f" [] [] (Except.ok (PyObj.scalar .none))
        exConn 0).2.1 1).1 = Except.ok (PyObj.scalar (.int 5)) ∧
    (Except.ok (PyObj.scalar (.int 5)) : Except String PyObj) ≠
      Except.ok (PyObj.scalar .none) := by
  refine ⟨by decide, by decide, by decide, by decide, by decide⟩

/-- Claim C10: a fetched `None` is stored but can never be served — the
stored `None` is indistinguishable from a miss, so every subsequent call
with the same name and arguments invokes the fetch again, whatever it now
returns and at whatever time. -/
theorem cached_none_reinvokes (ttl ttl2 : Nat) (fname : String)
    (args : List PyScalar) (kwargs : List (String × PyScalar))
    (V2 : Except String PyObj) (st : RedisState) (t t2 : Nat)
    (hmiss : RedisCache.get st t (RedisCache.generate_key fname args kwargs) =
      PyObj.scalar .none) :
    (cachedCall ttl fname args kwargs (Except.ok (PyObj.scalar .none)) st t).1 =
      Except.ok (PyObj.scalar .none) ∧
    (cachedCall ttl fname args kwargs (Except.ok (PyObj.scalar .none)) st t).2.2 =
      true ∧
    (cachedCall ttl2 fname args kwargs V2
      (cachedCall ttl fname args kwargs (Except.ok (PyObj.scalar .none))
        st t).2.1 t2).2.2 = true := by
  have hfirst : cachedCall ttl fname args kwargs
      (Except.ok (PyObj.scalar .none)) st t =
      (Except.ok (PyObj.scalar .none),
        (RedisCache.set st t (RedisCache.generate_key fname args kwargs)
          (PyObj.scalar .none) (some ttl)).2, true) := by
    unfold cachedCall
    simp only [hmiss]
    simp [PyObj.isNone]
  have hget2 : (RedisCache.get
      (RedisCache.set st t (RedisCache.generate_key fname args kwargs)
        (PyObj.scalar .none) (some ttl)).2 t2
      (RedisCache.generate_key fname args kwargs)).isNone = true := by
    by_cases hc : st.connected
    · simp only [RedisCache.set, hc, if_true, RedisCache.get, redisSetex,
        redisGet, RedisState.lookup, List.find?_cons, beq_self_eq_true]
      by_cases hlt : t2 < t + effTTL (some ttl)
      · simp [Option.map, hlt, PyObj.isNone]
      · simp [Option.map, hlt, PyObj.isNone]
    · have hf : st.connected = false := by simpa using hc
      simp [RedisCache.set, hf, RedisCache.get, PyObj.isNone]
  rw [hfirst]
  refine ⟨rfl, rfl, ?_⟩
  unfold cachedCall
  simp only [hget2]
  cases V2 <;> simp

/-- Witness for C10 at a concrete store, fetches and times. -/
theorem cached_none_reinvokes_witness :
    (cachedCall 60 "g" [] [] (Except.ok (PyObj.scalar .none)) exConn 0).1 =
      Except.ok (PyObj.scalar .none) ∧
    (cachedCall 60 "g" [] [] (Except.ok (PyObj.scalar .none)) exConn 0).2.2 =
      true ∧
    (cachedCall 60 "g" [] [] (Except.ok (PyObj.scalar (.int 9)))
      (cachedCall 60 "g" [] [] (Except.ok (PyObj.scalar .none))
        exConn 0).2.1 2).2.2 = true :=
  cached_none_reinvokes 60 60 "g" [] [] (Except.ok (PyObj.scalar (.int 9)))
    exConn 0 2 rfl

/-! Key generation: determinism, concrete distinctness, and the
impossibility of full injectivity. -/

/-- A byte-swapped word is below `2^32`. -/
theorem bswap32_lt (w : Nat) : bswap32 w < 2 ^ 32 := by
  unfold bswap32
  have h1 : w % 256 < 256 := Nat.mod_lt _ (by omega)
  have h2 : w / 2 ^ 8 % 256 < 256 := Nat.mod_lt _ (by omega)
  have h3 : w / 2 ^ 16 % 256 < 256 := Nat.mod_lt _ (by omega)
  have h4 : w / 2 ^ 24 % 256 < 256 := Nat.mod_lt _ (by omega)
  omega

/-- The MD5 digest, as a number, is below `2^128`: it is a 128-bit hash. -/
theorem md5Nat_lt (msg : List Nat) : md5Nat msg < 2 ^ 128 := by
  have h1 := bswap32_lt (md5words msg).1
  have h2 := bswap32_lt (md5words msg).2.1
  have h3 := bswap32_lt (md5words msg).2.2.1
  have h4 := bswap32_lt (md5words msg).2.2.2
  show bswap32 (md5words msg).1 * 2 ^ 96 + bswap32 (md5words msg).2.1 * 2 ^ 64 +
    bswap32 (md5words msg).2.2.1 * 2 ^ 32 + bswap32 (md5words msg).2.2.2 <
    2 ^ 128
  omega

/-- Counterexample to C7 as stated: `generate_key` cannot be injective —
its output determines only the 128-bit digest of an unbounded input space,
so two distinct namespaces collide (pigeonhole; the colliding pair is not
exhibited, only proved to exist). -/
theorem generate_key_collision :
    ∃ p1 p2 : String, p1 ≠ p2 ∧
      RedisCache.generate_key p1 [] [] = RedisCache.generate_key p2 [] [] := by
  obtain ⟨n, m, hnm, heq⟩ := Finite.exists_ne_map_eq_of_infinite
    (fun n : ℕ =>
      (⟨md5Nat (utf8 (String.mk (List.replicate n 'a') ++ ":" ++
          pyStrTuple [] ++ ":" ++ pyStrDict [])), md5Nat_lt _⟩ : Fin (2 ^ 128)))
  refine ⟨String.mk (List.replicate n 'a'), String.mk (List.replicate m 'a'),
    ?_, ?_⟩
  · intro h
    apply hnm
    have hdata : List.replicate n 'a' = List.replicate m 'a' :=
      congrArg String.data h
    have := congrArg List.length hdata
    simpa using this
  · have hval : md5Nat (utf8 (String.mk (List.replicate n 'a') ++ ":" ++
        pyStrTuple [] ++ ":" ++ pyStrDict [])) =
        md5Nat (utf8 (String.mk (List.replicate m 'a') ++ ":" ++
        pyStrTuple [] ++ ":" ++ pyStrDict [])) := by
      simpa using congrArg Fin.val heq
    unfold RedisCache.generate_key md5hex
    rw [hval]

/-- Claim C7 (amended): `key_for` is deterministic — equal namespace and
arguments give equal keys — and the spec's concrete examples do not
collide: `key_for("seller-by-id", 1)`, `key_for("seller-by-id", 2)` and
`key_for("seller-list")` are three distinct keys.  (Universal injectivity
is false, see the collision counterexample.) -/
theorem generate_key_det_and_distinct :
    (∀ (p1 p2 : String) (a1 a2 : List PyScalar)
      (k1 k2 : List (String × PyScalar)), p1 = p2 → a1 = a2 → k1 = k2 →
      RedisCache.generate_key p1 a1 k1 = RedisCache.generate_key p2 a2 k2) ∧
    RedisCache.generate_key "seller-by-id" [.int 1] [] ≠
      RedisCache.generate_key "seller-by-id" [.int 2] [] ∧
    RedisCache.generate_key "seller-by-id" [.int 1] [] ≠
      RedisCache.generate_key "seller-list" [] [] := by
  refine ⟨?_, by decide, by decide⟩
  rintro p1 p2 a1 a2 k1 k2 rfl rfl rfl
  rfl

/-- Witness for C7 (amended): determinism applied at concrete arguments,
plus one concrete non-collision. -/
theorem generate_key_det_and_distinct_witness :
    RedisCache.generate_key "seller-by-id" [.int 1] [] =
      RedisCache.generate_key "seller-by-id" [.int 1] [] ∧
    RedisCache.generate_key "seller-by-id" [.int 1] [] ≠
      RedisCache.generate_key "seller-by-id" [.int 2] [] :=
  ⟨generate_key_det_and_distinct.1 "seller-by-id" "seller-by-id"
      [.int 1] [.int 1] [] [] rfl rfl rfl,
    generate_key_det_and_distinct.2.1⟩

/-! The write-then-read scenario across the seller routes. -/

/-- Python `setattr` on a seller never changes the primary key. -/
theorem Supplier.setattr_id (s : Supplier) (f : String) (v : PyScalar) :
    (s.setattr f v).id = s.id := by
  unfold Supplier.setattr
  repeat' split
  all_goals rfl

/-- The update loop never changes the primary key. -/
theorem applyUpdate_id (upd : List (String × PyScalar)) :
    ∀ s : Supplier, (applyUpdate s upd).id = s.id := by
  induction upd with
  | nil => intro s; rfl
  | cons kv rest ih =>
    intro s
    unfold applyUpdate
    simp only [List.foldl_cons]
    have h2 := ih (if allowed_fields.contains kv.1 &&
      supplierAttrs.contains kv.1 then s.setattr kv.1 kv.2 else s)
    unfold applyUpdate at h2
    rw [h2]
    by_cases h : allowed_fields.contains kv.1 && supplierAttrs.contains kv.1
    · rw [if_pos h, Supplier.setattr_id]
    · rw [if_neg h]

/-- Applying the update map commutes with looking up the row: the found row
is the updated one. -/
theorem dbFirst_map_update (db : List Supplier) (i : Nat)
    (upd : List (String × PyScalar)) :
    dbFirst (db.map fun x => if x.id == i then applyUpdate x upd else x) i =
      Option.map (fun x => applyUpdate x upd) (dbFirst db i) := by
  induction db with
  | nil => rfl
  | cons s l ih =>
    unfold dbFirst
    simp only [List.map_cons]
    by_cases hsi : (s.id == i) = true
    · rw [if_pos hsi]
      have hid : ((applyUpdate s upd).id == i) = true := by
        rw [applyUpdate_id]; exact hsi
      rw [@List.find?_cons_of_pos _ (fun x => x.id == i) (applyUpdate s upd)
          (l.map fun x => if x.id == i then applyUpdate x upd else x) hid,
        @List.find?_cons_of_pos _ (fun x => x.id == i) s l hsi]
      rfl
    · rw [if_neg hsi]
      rw [@List.find?_cons_of_neg _ (fun x => x.id == i) s
          (l.map fun x => if x.id == i then applyUpdate x upd else x) hsi,
        @List.find?_cons_of_neg _ (fun x => x.id == i) s l hsi]
      unfold dbFirst at ih
      exact ih

/-- When the seller exists, `update_saller` returns the updated seller's
dict and the committed database maps the update over the matching row. -/
theorem update_saller_fn_found (db : List Supplier) (i : Nat)
    (upd : List (String × PyScalar)) (s : Supplier)
    (h : dbFirst db i = some s) :
    update_saller_fn db i upd =
      (Except.ok (supplier_to_dict (applyUpdate s upd)),
        db.map fun x => if x.id == i then applyUpdate x upd else x) := by
  unfold update_saller_fn
  rw [h]
  simp only
  rw [dbFirst_map_update, h]
  simp [Option.map]

/-- Claim C1 is violated by the code (a bug against the spec's stated
ordering): `update_saller` is an `async def` but `invalidate_cache`'s
wrapper is synchronous, so calling it only creates a coroutine — the body,
including `db.commit()`, does not run — and `clear_pattern` then executes.
At the claim's scenario (seller 1, name updated to `"B"`): the route's
response is the un-awaited coroutine instead of the updated dict; the
database is exactly unchanged, so no commit happened; the cache has
nevertheless already been invalidated; an authoritative read of id 1 still
yields the OLD record (name `"A"` in the witness), not `"B"`; and the
pending body, had it been awaited, would have committed and returned the
record renamed to `"B"` — the outcome the wrapper never delivers.  Thus
invalidation happens strictly before (indeed without) the durable commit,
the opposite of the claim. -/
theorem update_saller_invalidates_before_commit (db : List Supplier)
    (st : RedisState) (t : Nat) (s : Supplier)
    (hfind : dbFirst db 1 = some s) :
    (update_saller_route db st t 1 [("name", PyScalar.str "B")]).1 =
      Coroutine.update_saller 1 [("name", PyScalar.str "B")] ∧
    (update_saller_route db st t 1 [("name", PyScalar.str "B")]).2.1 = db ∧
    (update_saller_route db st t 1 [("name", PyScalar.str "B")]).2.2 =
      (RedisCache.clear_pattern st t "cache:*").2 ∧
    get_saller_by_id_fn
      (update_saller_route db st t 1 [("name", PyScalar.str "B")]).2.1 1 =
      Except.ok (supplier_to_dict s) ∧
    (update_saller_fn db 1 [("name", PyScalar.str "B")]).1 =
      Except.ok (supplier_to_dict
        (applyUpdate s [("name", PyScalar.str "B")])) ∧
    (applyUpdate s [("name", PyScalar.str "B")]).name = PyScalar.str "B" := by
  refine ⟨rfl, rfl, rfl, ?_, ?_, ?_⟩
  · show get_saller_by_id_fn db 1 = Except.ok (supplier_to_dict s)
    unfold get_saller_by_id_fn
    rw [hfind]
  · rw [update_saller_fn_found db 1 [("name", PyScalar.str "B")] s hfind]
  · simp [applyUpdate, allowed_fields, supplierAttrs, Supplier.setattr]

/-- Example row: seller 1 with name `"A"`. -/
def exSellerA : Supplier :=
  ⟨1, .str "A", .none, .none, .none, .none, .bool true, .none, .none⟩

/-- Example store holding a stale cached `"A"` dict under a key of the
generated `"cache:" ++ digest` form. -/
def exStale : RedisState :=
  ⟨[(RedisCache.generate_key "get_saller_by_id" [.int 1] [],
      PyObj.dict [("id", .int 1), ("name", .str "A")], 1000)], true⟩

/-- Witness for C1 at the failing input: seller 1 named `"A"`, update to
`"B"` at time 5 — the route returns the coroutine, the database still holds
`"A"`, the stale cache has been cleared anyway, and the would-be body
result carries `"B"`. -/
theorem update_saller_invalidates_before_commit_witness :
    (update_saller_route [exSellerA] exStale 5 1
      [("name", PyScalar.str "B")]).1 =
      Coroutine.update_saller 1 [("name", PyScalar.str "B")] ∧
    (update_saller_route [exSellerA] exStale 5 1
      [("name", PyScalar.str "B")]).2.1 = [exSellerA] ∧
    (update_saller_route [exSellerA] exStale 5 1
      [("name", PyScalar.str "B")]).2.2 =
      (RedisCache.clear_pattern exStale 5 "cache:*").2 ∧
    get_saller_by_id_fn
      (update_saller_route [exSellerA] exStale 5 1
        [("name", PyScalar.str "B")]).2.1 1 =
      Except.ok (supplier_to_dict exSellerA) ∧
    (update_saller_fn [exSellerA] 1 [("name", PyScalar.str "B")]).1 =
      Except.ok (supplier_to_dict
        (applyUpdate exSellerA [("name", PyScalar.str "B")])) ∧
    (applyUpdate exSellerA [("name", PyScalar.str "B")]).name =
      PyScalar.str "B" :=
  update_saller_invalidates_before_commit [exSellerA] exStale 5 exSellerA rfl
